import Mathlib

/-!
Shallow embedding of the dataway write path of `src/io/dataway/endpoint.go`
(package `dataway`): endpoint construction (`newEndpoint`), the per-body
delivery and failure classification (`writePointData`), the cache-or-drop
decision (`writeBody` / `doCache`), and the per-request loop (`writePoints`).

The HTTP transport, prometheus counters and log strings are elided; the
observable effects the specification speaks about are tracked explicitly in
result structures: the URL a POST was attempted against, the dial-testing
health reports, the enqueue (`fc.Put`) calls with their records, the
dropped-data warning, and the process-wide `metrics.BeyondUsage` quota flag
(threaded as an explicit integer; Go's `int64` overflow is immaterial at the
magnitudes involved, so `Int` is used).
-/

namespace Dataway

/-- Does `sub` occur at the head of `l`? (helper for `strContains`). -/
def charsLead : List Char → List Char → Bool
  | [], _ => true
  | _ :: _, [] => false
  | a :: as, b :: bs => (a == b) && charsLead as bs

/-- Does `sub` occur contiguously anywhere in the second list? -/
def charsContain (sub : List Char) : List Char → Bool
  | [] => charsLead sub []
  | c :: t => charsLead sub (c :: t) || charsContain sub t

/-- Go `strings.Contains s sub`. -/
def strContains (s sub : String) : Bool :=
  charsContain sub.toList s.toList

/-- Byte-wise (codepoint-wise) string order, as used by Go's `sort.Strings`
inside `url.Values.Encode`. -/
def charsLe : List Char → List Char → Bool
  | [], _ => true
  | _ :: _, [] => false
  | a :: as, b :: bs => if a = b then charsLe as bs else decide (a.toNat < b.toNat)

def strLe (s t : String) : Bool := charsLe s.toList t.toList

/-- Insert a key into a sorted, duplicate-free key list (helper modelling the
sorted-key iteration of Go's `url.Values.Encode`). -/
def insortKey (x : String) : List String → List String
  | [] => [x]
  | y :: ys =>
    if x = y then y :: ys
    else if strLe x y then x :: y :: ys
    else y :: insortKey x ys

/-- Split a character list at every occurrence of `c`. -/
def splitOnChar (c : Char) : List Char → List (List Char)
  | [] => [[]]
  | x :: xs =>
    if x = c then [] :: splitOnChar c xs
    else
      match splitOnChar c xs with
      | [] => [[x]]
      | h :: t => (x :: h) :: t

/-- Split at the first occurrence of `c`: the part before it and, when `c`
occurs, the part after it. -/
def splitFirst (c : Char) : List Char → List Char × Option (List Char)
  | [] => ([], none)
  | x :: xs =>
    if x = c then ([], some xs)
    else ((x :: (splitFirst c xs).1), (splitFirst c xs).2)

/-- Split one `key=value` query segment at the first `=` (Go `url.ParseQuery`);
a segment with no `=` is a key with empty value. -/
def parsePair (seg : List Char) : String × String :=
  match splitFirst '=' seg with
  | (k, none) => (⟨k⟩, "")
  | (k, some v) => (⟨k⟩, ⟨v⟩)

/-- Modelled Go `url.ParseQuery` for percent-free, `&`-separated queries:
the list of key/value pairs in order of appearance, empty segments skipped. -/
def parseQuery (s : String) : List (String × String) :=
  ((splitOnChar '&' s.toList).filter (fun seg => !seg.isEmpty)).map parsePair

/-- Modelled Go `u.Query().Encode()`: re-encode the parsed query with keys
sorted and each key's values grouped in order of appearance.  This is what
`newEndpoint` actually appends to every category URL — not the raw query. -/
def encodeQuery (raw : String) : String :=
  let kvs := parseQuery raw
  let keys := (kvs.map Prod.fst).foldl (fun acc k => insortKey k acc) []
  String.intercalate "&"
    (keys.flatMap (fun k =>
      (kvs.filter (fun p => p.1 == k)).map (fun p => p.1 ++ "=" ++ p.2)))

/-- Go `u.Query().Get key`: first value for `key`, `""` when absent. -/
def queryGet (raw key : String) : String :=
  match (parseQuery raw).filter (fun p => p.1 == key) with
  | [] => ""
  | p :: _ => p.2

/-! ### Categories

Modelled from the spec (§6 wire protocol): the `datakit` package category
constants are URL path strings; they are referenced by `endpoint.go` but the
`datakit` package itself is outside the excerpted sources. -/

def Metric : String := "/v1/write/metric"
def MetricDeprecated : String := "/v1/write/metrics"
def Object : String := "/v1/write/object"
def CustomObject : String := "/v1/write/custom_object"
def Logging : String := "/v1/write/logging"
def KeyEvent : String := "/v1/write/keyevent"
def Tracing : String := "/v1/write/tracing"
def DynamicDatawayCategory : String := "dynamic_dataway"

/-- Modelled from the spec: `point.CatURL` maps a category URL to its stable
small-integer category code stored in cache records (§3 CacheRecord); the
`point` package is outside the excerpted sources.  The exact numbers are
irrelevant to the claims, only that the record carries the code of the
request's category. -/
def catURL (c : String) : Int :=
  if c = Metric then 1
  else if c = MetricDeprecated then 1
  else if c = Object then 2
  else if c = CustomObject then 3
  else if c = Logging then 4
  else if c = KeyEvent then 5
  else if c = Tracing then 6
  else if c = DynamicDatawayCategory then 7
  else 0

/-! ### Data model -/

/-- One HTTP payload unit (`body` in `dataway`): raw bytes, point count,
payload encoding tag, gzip flag.  Bytes are modelled as naturals. -/
structure body where
  buf : List Nat
  npts : Nat
  payload : Int
  gzon : Bool
deriving Repr, DecidableEq

/-- The write request (`writer` in `dataway`).  `fcPresent` models
`w.fc != nil` (the failure-cache handle); the durable queue itself is an
external collaborator reached only through `Put`. -/
structure writer where
  category : String
  gzip : Bool
  cacheAll : Bool
  fcPresent : Bool
  dynamicURL : String
  isSinker : Bool
deriving Repr, DecidableEq

/-- The protobuf `CacheData` record handed to `fc.Put` by `doCache`. -/
structure CacheData where
  category : Int
  payloadType : Int
  payload : List Nat
deriving Repr, DecidableEq

/-- `endPoint`: token, host, scheme and the category routing table
(association list standing for Go's `map[string]string`). -/
structure endPoint where
  token : String
  host : String
  scheme : String
  categoryURL : List (String × String)
deriving Repr, DecidableEq

/-- First value bound to key `c` in an association list. -/
def assocFind (c : String) : List (String × String) → Option String
  | [] => none
  | p :: rest => if p.1 = c then some p.2 else assocFind c rest

/-- Go map lookup `ep.categoryURL[w.category]`. -/
def lookupCat (ep : endPoint) (c : String) : Option String :=
  assocFind c ep.categoryURL

/-! ### Endpoint construction (`newEndpoint`)

`url.ParseRequestURI` is Go stdlib; the model takes the already-parsed
scheme/host/raw-query triple, so `InvalidEndpointURL` (parse failure) is
outside the model.  `setupHTTP` configures the transport and never fails. -/

structure URLParts where
  scheme : String
  host : String
  rawQuery : String
deriving Repr, DecidableEq

/-- The category URL built by the loop in `newEndpoint`: note the query is
`u.Query().Encode()`, i.e. the canonical re-encoding, appended only when
non-empty. -/
def buildCategoryURL (u : URLParts) (api : String) : String :=
  let q := encodeQuery u.rawQuery
  if q ≠ "" then u.scheme ++ "://" ++ u.host ++ api ++ "?" ++ q
  else u.scheme ++ "://" ++ u.host ++ api

def newEndpoint (u : URLParts) (apis : List String) : Except String endPoint :=
  if u.scheme = "http" ∨ u.scheme = "https" then
    Except.ok
      { token := queryGet u.rawQuery "token"
        host := u.host
        scheme := u.scheme
        categoryURL := apis.map (fun api => (api, buildCategoryURL u api)) }
  else
    Except.error ("not supported scheme " ++ u.scheme)

/-! ### Per-body delivery and classification (`writePointData`) -/

/-- Result of `sendReq` + response-body read, as seen by `writePointData`:
a transport/network error, a response whose body was read, or a response
whose body read failed. -/
inductive Outcome
  | netErr
  | resp (status : Nat) (respBody : String)
  | respReadErr (status : Nat)
deriving Repr, DecidableEq

/-- The environment a single delivery runs against: the HTTP outcome, whether
`url.ParseRequestURI(w.dynamicURL)` succeeds, whether `fc.Put` succeeds (its
error is only logged, so it influences nothing tracked), and
`time.Now().Unix()`. -/
structure Env where
  outcome : Outcome
  dynParseOk : Bool
  putOk : Bool
  now : Int
deriving Repr, DecidableEq

/-- The distinct error values `writePointData` can return.  `write4xx` is the
sentinel `errWritePoints4XX` tested with `errors.Is` in `writeBody`;
`routeNotFound` is the `"invalid url %s"` error returned when the category is
not routed and no dynamic URL was supplied. -/
inductive WPError
  | write4xx
  | dwInternal
  | netError
  | dynURLParseError
  | routeNotFound
  | readBodyError
deriving Repr, DecidableEq

/-- The local variable `httpCode` of `writePointData` is declared and never
assigned anywhere in the function (only `httpCodeStr` is updated), so it
keeps its zero value on every path. -/
def writePointDataHttpCode : Nat := 0

def writePathMarker : String := "/v1/write/"
def quotaMarker : String := "beyondDataUsage"

structure WPDResult where
  err : Option WPError
  flag : Int
  target : Option String
  dtReports : List (String × Bool)
deriving Repr, DecidableEq

/-- The dial-testing report produced by the deferred `updateDTFailInfo`
call when a dynamic URL is in use: its `ok` argument is
`httpCode/100 == 2` with the never-assigned `httpCode`. -/
def dtTrace (requrl : String) (dtActive : Bool) : List (String × Bool) :=
  if dtActive then [(requrl, writePointDataHttpCode / 100 == 2)] else []

/-- The tail of `writePointData` after the destination URL is resolved:
send, read, and classify by status class.  `flag0` is the value of
`metrics.BeyondUsage` before the call. -/
def deliver (env : Env) (flag0 : Int) (requrl : String) (dtActive : Bool) : WPDResult :=
  match env.outcome with
  | Outcome.netErr =>
    { err := some WPError.netError, flag := flag0,
      target := some requrl, dtReports := dtTrace requrl dtActive }
  | Outcome.respReadErr _ =>
    { err := some WPError.readBodyError, flag := flag0,
      target := some requrl, dtReports := dtTrace requrl dtActive }
  | Outcome.resp status rb =>
    if status / 100 = 2 then
      { err := none,
        flag := if strContains requrl writePathMarker = true ∧ 0 < flag0 then 0 else flag0,
        target := some requrl, dtReports := dtTrace requrl dtActive }
    else if status / 100 = 4 then
      { err := some WPError.write4xx,
        flag := if status = 403 ∧ strContains rb quotaMarker = true then flag0 + env.now else flag0,
        target := some requrl, dtReports := dtTrace requrl dtActive }
    else
      { err := some WPError.dwInternal, flag := flag0,
        target := some requrl, dtReports := dtTrace requrl dtActive }

/-- `writePointData`: resolve the destination URL from the routing table, or
from `w.dynamicURL` when the category is not routed; fail with the
`"invalid url"` error when neither is available; then deliver and classify. -/
def writePointData (ep : endPoint) (env : Env) (w : writer) (flag0 : Int) : WPDResult :=
  match lookupCat ep w.category with
  | some requrl => deliver env flag0 requrl false
  | none =>
    if w.dynamicURL ≠ "" then
      if env.dynParseOk then deliver env flag0 w.dynamicURL true
      else { err := some WPError.dynURLParseError, flag := flag0, target := none, dtReports := [] }
    else
      { err := some WPError.routeNotFound, flag := flag0, target := none, dtReports := [] }

/-! ### Cache-or-drop (`writeBody`, `doCache`) -/

/-- The categories of the `switch` in `writeBody` that are never cached under
the default (`cacheAll = false`) policy. -/
def neverCacheCategories : List String :=
  [Metric, MetricDeprecated, Object, CustomObject, DynamicDatawayCategory]

/-- The record `doCache` marshals and hands to `fc.Put`. -/
def doCacheRecord (w : writer) (b : body) : CacheData :=
  { category := catURL w.category, payloadType := b.payload, payload := b.buf }

/-- The decision tree of `writeBody`'s error branch:
`(enqueue?, drop-warning?)`. -/
def cacheDecision (w : writer) (e : WPError) : Bool × Bool :=
  if e = WPError.write4xx then (false, false)
  else if w.fcPresent = false then (false, false)
  else if w.cacheAll = true then (true, false)
  else if w.category ∈ neverCacheCategories then (false, true)
  else (true, false)

structure WBResult where
  err : Option WPError
  flag : Int
  target : Option String
  dtReports : List (String × Bool)
  sendFailLogged : Bool
  puts : List CacheData
  dropWarned : Bool
deriving Repr, DecidableEq

/-- The error-handling tail of `writeBody`, applied to the delivery result. -/
def writeBodyAux (w : writer) (b : body) (r : WPDResult) : WBResult :=
  match r.err with
  | none =>
    { err := none, flag := r.flag, target := r.target, dtReports := r.dtReports,
      sendFailLogged := false, puts := [], dropWarned := false }
  | some e =>
    { err := some e, flag := r.flag, target := r.target, dtReports := r.dtReports,
      sendFailLogged := true,
      puts := if (cacheDecision w e).1 = true then [doCacheRecord w b] else [],
      dropWarned := (cacheDecision w e).2 }

/-- `writeBody`: set `w.gzip = b.gzon`, deliver, and on failure run the
cache-or-drop decision. -/
def writeBody (ep : endPoint) (env : Env) (w : writer) (b : body) (flag0 : Int) : WBResult :=
  writeBodyAux { w with gzip := b.gzon } b
    (writePointData ep env { w with gzip := b.gzon } flag0)

/-! ### The per-request loop (`writePoints`)

`buildBody` (the batch segmenter) lives outside the excerpted sources; its
result — either a segmentation error or the list of bodies — is taken as the
`seg` argument, exactly what `writePoints` branches on. -/

structure WPResult where
  err : Option String
  flag : Int
  results : List WBResult
deriving Repr, DecidableEq

/-- The body loop of `writePoints`: every body is handed to `writeBody`,
threading the quota flag; per-body outcomes never stop the loop. -/
def writeBodies (ep : endPoint) (envs : Nat → Env) (w : writer)
    (bodies : List body) (flag0 : Int) : Int × List WBResult :=
  match bodies with
  | [] => (flag0, [])
  | b :: rest =>
    ((writeBodies ep (fun i => envs (i + 1)) w rest (writeBody ep (envs 0) w b flag0).flag).1,
     writeBody ep (envs 0) w b flag0 ::
       (writeBodies ep (fun i => envs (i + 1)) w rest (writeBody ep (envs 0) w b flag0).flag).2)

/-- `writePoints`: return the segmentation error when `buildBody` failed,
otherwise run every body through `writeBody` and return nil. -/
def writePoints (ep : endPoint) (envs : Nat → Env) (w : writer)
    (seg : Except String (List body)) (flag0 : Int) : WPResult :=
  match seg with
  | Except.error e => { err := some e, flag := flag0, results := [] }
  | Except.ok bodies =>
    { err := none,
      flag := (writeBodies ep envs w bodies flag0).1,
      results := (writeBodies ep envs w bodies flag0).2 }

/-! ### Concrete fixtures for witnesses and counterexamples -/

def ep0 : endPoint :=
  { token := "T1", host := "gw.example", scheme := "https",
    categoryURL :=
      [(Metric, "https://gw.example/v1/write/metric?token=T1"),
       (Logging, "https://gw.example/v1/write/logging?token=T1")] }

def b1 : body := { buf := [1, 2, 3], npts := 3, payload := 0, gzon := false }

def env200 : Env := { outcome := Outcome.resp 200 "", dynParseOk := true, putOk := true, now := 5 }
def env400 : Env := { outcome := Outcome.resp 400 "bad request", dynParseOk := true, putOk := true, now := 5 }
def env403q : Env := { outcome := Outcome.resp 403 "beyondDataUsage", dynParseOk := true, putOk := true, now := 200 }
def env500 : Env := { outcome := Outcome.resp 500 "", dynParseOk := true, putOk := true, now := 5 }

def wMet : writer :=
  { category := Metric, gzip := false, cacheAll := false,
    fcPresent := true, dynamicURL := "", isSinker := false }

def wLogFc : writer :=
  { category := Logging, gzip := false, cacheAll := false,
    fcPresent := true, dynamicURL := "", isSinker := false }

def wLogNoFc : writer :=
  { category := Logging, gzip := false, cacheAll := false,
    fcPresent := false, dynamicURL := "", isSinker := false }

def wCacheAllNoFc : writer :=
  { category := Logging, gzip := false, cacheAll := true,
    fcPresent := false, dynamicURL := "", isSinker := false }

def wDyn : writer :=
  { category := DynamicDatawayCategory, gzip := false, cacheAll := false,
    fcPresent := true, dynamicURL := "http://1.2.3.4:9529/cb", isSinker := false }

def wNoRoute : writer :=
  { category := Tracing, gzip := false, cacheAll := false,
    fcPresent := false, dynamicURL := "", isSinker := false }

def wMetDyn : writer :=
  { category := Metric, gzip := false, cacheAll := false,
    fcPresent := true, dynamicURL := "http://other.example/x", isSinker := false }

/-! ### Helper lemmas shared by the claim theorems -/

theorem writeBodyAux_err (w : writer) (b : body) (r : WPDResult) :
    (writeBodyAux w b r).err = r.err := by
  unfold writeBodyAux
  cases h : r.err <;> simp

theorem writeBodyAux_flag (w : writer) (b : body) (r : WPDResult) :
    (writeBodyAux w b r).flag = r.flag := by
  unfold writeBodyAux
  cases h : r.err <;> simp

theorem writeBodyAux_target (w : writer) (b : body) (r : WPDResult) :
    (writeBodyAux w b r).target = r.target := by
  unfold writeBodyAux
  cases h : r.err <;> simp

theorem writeBodyAux_dt (w : writer) (b : body) (r : WPDResult) :
    (writeBodyAux w b r).dtReports = r.dtReports := by
  unfold writeBodyAux
  cases h : r.err <;> simp

theorem writeBodyAux_logged (w : writer) (b : body) (r : WPDResult) :
    (writeBodyAux w b r).sendFailLogged = r.err.isSome := by
  unfold writeBodyAux
  cases h : r.err <;> simp [h]

theorem writeBodyAux_puts (w : writer) (b : body) (r : WPDResult) :
    (writeBodyAux w b r).puts =
      (match r.err with
       | none => []
       | some e => if (cacheDecision w e).1 = true then [doCacheRecord w b] else []) := by
  unfold writeBodyAux
  cases h : r.err <;> simp [h]

theorem writeBodyAux_drop (w : writer) (b : body) (r : WPDResult) :
    (writeBodyAux w b r).dropWarned =
      (match r.err with
       | none => false
       | some e => (cacheDecision w e).2) := by
  unfold writeBodyAux
  cases h : r.err <;> simp [h]

theorem gz_category (w : writer) (g : Bool) :
    ({ w with gzip := g } : writer).category = w.category := rfl

theorem gz_cacheDecision (w : writer) (g : Bool) (e : WPError) :
    cacheDecision { w with gzip := g } e = cacheDecision w e := rfl

theorem gz_doCacheRecord (w : writer) (g : Bool) (b : body) :
    doCacheRecord { w with gzip := g } b = doCacheRecord w b := rfl

theorem writeBody_err (ep : endPoint) (env : Env) (w : writer) (b : body) (flag0 : Int) :
    (writeBody ep env w b flag0).err =
      (writePointData ep env { w with gzip := b.gzon } flag0).err := by
  unfold writeBody
  exact writeBodyAux_err _ _ _

theorem writeBody_flag (ep : endPoint) (env : Env) (w : writer) (b : body) (flag0 : Int) :
    (writeBody ep env w b flag0).flag =
      (writePointData ep env { w with gzip := b.gzon } flag0).flag := by
  unfold writeBody
  exact writeBodyAux_flag _ _ _

theorem writeBody_target (ep : endPoint) (env : Env) (w : writer) (b : body) (flag0 : Int) :
    (writeBody ep env w b flag0).target =
      (writePointData ep env { w with gzip := b.gzon } flag0).target := by
  unfold writeBody
  exact writeBodyAux_target _ _ _

theorem writeBody_dt (ep : endPoint) (env : Env) (w : writer) (b : body) (flag0 : Int) :
    (writeBody ep env w b flag0).dtReports =
      (writePointData ep env { w with gzip := b.gzon } flag0).dtReports := by
  unfold writeBody
  exact writeBodyAux_dt _ _ _

/-- The gzip update inside `writeBody` does not change the fields
`writePointData` reads, so lookups agree with the original writer. -/
theorem wpd_gz (ep : endPoint) (env : Env) (w : writer) (g : Bool) (flag0 : Int) :
    writePointData ep env { w with gzip := g } flag0 = writePointData ep env w flag0 := rfl

theorem deliver_target (env : Env) (flag0 : Int) (requrl : String) (dtActive : Bool) :
    (deliver env flag0 requrl dtActive).target = some requrl := by
  unfold deliver
  split
  · rfl
  · rfl
  · split
    · rfl
    · split <;> rfl

theorem deliver_dt_off (env : Env) (flag0 : Int) (requrl : String) :
    (deliver env flag0 requrl false).dtReports = [] := by
  unfold deliver
  split
  · rfl
  · rfl
  · split
    · rfl
    · split <;> rfl

theorem deliver_quota_add (env : Env) (flag0 : Int) (requrl : String) (dtActive : Bool)
    (rb : String) (h1 : env.outcome = Outcome.resp 403 rb)
    (h2 : strContains rb quotaMarker = true) :
    (deliver env flag0 requrl dtActive).flag = flag0 + env.now := by
  unfold deliver
  rw [h1]
  simp [h2]

theorem deliver_flag_2xx (env : Env) (flag0 : Int) (requrl : String) (dtActive : Bool)
    (s : Nat) (rb : String) (h1 : env.outcome = Outcome.resp s rb) (h2 : s / 100 = 2)
    (h3 : strContains requrl writePathMarker = true) (h4 : 0 < flag0) :
    (deliver env flag0 requrl dtActive).flag = 0 := by
  unfold deliver
  rw [h1]
  simp [h2, h3, h4]

theorem deliver_flag_zero (env : Env) (flag0 : Int) (requrl : String) (dtActive : Bool)
    (h4 : 0 < flag0) (h5 : 0 < env.now)
    (h : (deliver env flag0 requrl dtActive).flag = 0) :
    ∃ s rb, env.outcome = Outcome.resp s rb ∧ s / 100 = 2 ∧
      strContains requrl writePathMarker = true := by
  unfold deliver at h
  cases ho : env.outcome with
  | netErr => rw [ho] at h; simp at h; omega
  | resp s rb =>
    rw [ho] at h
    by_cases h2 : s / 100 = 2
    · simp only [h2, if_true] at h
      simp at h
      by_cases h3 : strContains requrl writePathMarker = true
      · exact ⟨s, rb, rfl, h2, h3⟩
      · simp [h3] at h
        omega
    · by_cases hx : s / 100 = 4
      · simp only [h2, hx, if_false, if_true] at h
        simp at h
        split_ifs at h
        · omega
        · omega
      · simp only [h2, hx, if_false] at h
        omega
  | respReadErr s => rw [ho] at h; simp at h; omega

theorem cacheDecision_default_mem (w : writer) (e : WPError)
    (hfc : w.fcPresent = true) (hca : w.cacheAll = false) (hne : e ≠ WPError.write4xx)
    (hm : w.category ∈ neverCacheCategories) :
    cacheDecision w e = (false, true) := by
  unfold cacheDecision
  simp [hne, hfc, hca, hm]

theorem cacheDecision_default_nomem (w : writer) (e : WPError)
    (hfc : w.fcPresent = true) (hca : w.cacheAll = false) (hne : e ≠ WPError.write4xx)
    (hm : w.category ∉ neverCacheCategories) :
    cacheDecision w e = (true, false) := by
  unfold cacheDecision
  simp [hne, hfc, hca, hm]

theorem assocFind_map (g : String → String) :
    ∀ (apis : List String) (api : String), api ∈ apis →
      assocFind api (apis.map (fun a => (a, g a))) = some (g api) := by
  intro apis
  induction apis with
  | nil => intro api h; cases h
  | cons a rest ih =>
    intro api h
    by_cases he : a = api
    · subst he
      simp [assocFind]
    · have hmem : api ∈ rest := by
        rcases List.mem_cons.mp h with h1 | h1
        · exact absurd h1.symm he
        · exact h1
      simp only [List.map_cons, assocFind, he, if_false]
      exact ih api hmem

theorem cacheDecision_noFc (w : writer) (e : WPError) (h : w.fcPresent = false) :
    cacheDecision w e = (false, false) := by
  unfold cacheDecision
  split
  · rfl
  · simp [h]

theorem writeBodies_len (ep : endPoint) (w : writer) :
    ∀ (bodies : List body) (envs : Nat → Env) (flag0 : Int),
      (writeBodies ep envs w bodies flag0).2.length = bodies.length := by
  intro bodies
  induction bodies with
  | nil => intro envs flag0; rfl
  | cons b rest ih =>
    intro envs flag0
    simp [writeBodies, ih]

/-! ### Claim theorems -/

/-- C2: `writePoints` returns nil whenever segmentation succeeds, regardless
of how the per-body deliveries fare (the per-body environments `envs` are
universally quantified, covering network errors, 4xx, 5xx and enqueue
failures); it returns a non-nil error exactly when segmentation fails; and
every body is handed to `writeBody` (one result per body, with the head
body's outcome never stopping the tail). -/
theorem claim2_thm (ep : endPoint) (envs : Nat → Env) (w : writer) (bodies : List body)
    (flag0 : Int) (e : String) (b : body) :
    (writePoints ep envs w (Except.ok bodies) flag0).err = none ∧
    (writePoints ep envs w (Except.error e) flag0).err = some e ∧
    (writePoints ep envs w (Except.ok bodies) flag0).results.length = bodies.length ∧
    (writePoints ep envs w (Except.ok (b :: bodies)) flag0).results =
      writeBody ep (envs 0) w b flag0 ::
        (writePoints ep (fun i => envs (i + 1)) w (Except.ok bodies)
          (writeBody ep (envs 0) w b flag0).flag).results := by
  refine ⟨rfl, rfl, ?_, rfl⟩
  exact writeBodies_len ep w bodies envs flag0

/-- C5: a body whose delivery is classified as a 4xx outcome (the sentinel
`errWritePoints4XX`) is never enqueued, regardless of `cacheAll`, category
and failure-cache handle. -/
theorem claim5_thm (ep : endPoint) (env : Env) (w : writer) (b : body) (flag0 : Int)
    (h : (writeBody ep env w b flag0).err = some WPError.write4xx) :
    (writeBody ep env w b flag0).puts = [] := by
  have hp : (writeBody ep env w b flag0).puts =
      (match (writePointData ep env { w with gzip := b.gzon } flag0).err with
       | none => ([] : List CacheData)
       | some e =>
         if (cacheDecision { w with gzip := b.gzon } e).1 = true
         then [doCacheRecord { w with gzip := b.gzon } b] else []) :=
    writeBodyAux_puts _ _ _
  rw [writeBody_err] at h
  rw [h] at hp
  simpa [cacheDecision] using hp

/-- C5 witness: a 400 response with `cacheAll = true` and a live failure
cache still produces zero enqueue calls. -/
theorem claim5_witness :
    (writeBody ep0 env400 { wLogFc with cacheAll := true } b1 0).err = some WPError.write4xx ∧
    (writeBody ep0 env400 { wLogFc with cacheAll := true } b1 0).puts = [] :=
  ⟨by decide, claim5_thm ep0 env400 { wLogFc with cacheAll := true } b1 0 (by decide)⟩

/-- C7 counterexample to the claim as stated: with a category absent from the
routing table and no dynamic URL, `writePoints` still returns nil — the
route-not-found error is absorbed by `writeBody`, not propagated. -/
theorem claim7_cex :
    (writePoints ep0 (fun _ => env500) wNoRoute (Except.ok [b1]) 0).err = none := by decide

/-- C7 (amended): when the category is absent from the routing table and no
dynamic URL is supplied, the per-body delivery fails with the route-not-found
(`"invalid url"`) error, but `writeBody` absorbs it and `writePoints` returns
nil rather than propagating it to its caller. -/
theorem claim7_amended (ep : endPoint) (env : Env) (envs : Nat → Env) (w : writer)
    (bodies : List body) (flag0 : Int)
    (h1 : lookupCat ep w.category = none) (h2 : w.dynamicURL = "") :
    (writePointData ep env w flag0).err = some WPError.routeNotFound ∧
    (writePoints ep envs w (Except.ok bodies) flag0).err = none := by
  refine ⟨?_, rfl⟩
  unfold writePointData
  rw [h1]
  simp [h2]

/-- C7 witness: the amended claim at a concrete unrouted writer. -/
theorem claim7_witness :
    (writePointData ep0 env500 wNoRoute 0).err = some WPError.routeNotFound ∧
    (writePoints ep0 (fun _ => env500) wNoRoute (Except.ok [b1]) 0).err = none :=
  claim7_amended ep0 env500 (fun _ => env500) wNoRoute [b1] 0 (by decide) rfl

/-- C9: with a nil failure-cache handle (`w.fc == nil`), no enqueue call is
ever attempted — even with `cacheAll = true` or a default-cacheable
category — there is no dropped-data warning, and the send-failure log is
emitted exactly when the delivery failed. -/
theorem claim9_thm (ep : endPoint) (env : Env) (w : writer) (b : body) (flag0 : Int)
    (h : w.fcPresent = false) :
    (writeBody ep env w b flag0).puts = [] ∧
    (writeBody ep env w b flag0).dropWarned = false ∧
    (writeBody ep env w b flag0).sendFailLogged = ((writeBody ep env w b flag0).err).isSome := by
  have hc : ∀ e, cacheDecision { w with gzip := b.gzon } e = (false, false) :=
    fun e => cacheDecision_noFc _ e h
  have hp : (writeBody ep env w b flag0).puts =
      (match (writePointData ep env { w with gzip := b.gzon } flag0).err with
       | none => ([] : List CacheData)
       | some e =>
         if (cacheDecision { w with gzip := b.gzon } e).1 = true
         then [doCacheRecord { w with gzip := b.gzon } b] else []) :=
    writeBodyAux_puts _ _ _
  have hd : (writeBody ep env w b flag0).dropWarned =
      (match (writePointData ep env { w with gzip := b.gzon } flag0).err with
       | none => false
       | some e => (cacheDecision { w with gzip := b.gzon } e).2) :=
    writeBodyAux_drop _ _ _
  have hl : (writeBody ep env w b flag0).sendFailLogged =
      ((writePointData ep env { w with gzip := b.gzon } flag0).err).isSome :=
    writeBodyAux_logged _ _ _
  have he : (writeBody ep env w b flag0).err =
      (writePointData ep env { w with gzip := b.gzon } flag0).err :=
    writeBody_err ep env w b flag0
  cases herr : (writePointData ep env { w with gzip := b.gzon } flag0).err with
  | none =>
    rw [herr] at hp hd hl
    exact ⟨hp, hd, by rw [hl, he, herr]⟩
  | some e =>
    rw [herr] at hp hd hl
    refine ⟨?_, ?_, by rw [hl, he, herr]⟩
    · simpa [hc e] using hp
    · simpa [hc e] using hd

/-- C9 witness: nil failure cache with `cacheAll = true` on a 5xx outcome
still enqueues nothing and only logs the send failure. -/
theorem claim9_witness :
    (writeBody ep0 env500 wCacheAllNoFc b1 0).puts = [] ∧
    (writeBody ep0 env500 wCacheAllNoFc b1 0).dropWarned = false ∧
    (writeBody ep0 env500 wCacheAllNoFc b1 0).sendFailLogged =
      ((writeBody ep0 env500 wCacheAllNoFc b1 0).err).isSome :=
  claim9_thm ep0 env500 wCacheAllNoFc b1 0 rfl

/-- C10: when the request's category is present in the routing table, the
body is POSTed to the static category URL — a supplied dynamic URL is
ignored — and no dial-testing health report is made for that delivery. -/
theorem claim10_thm (ep : endPoint) (env : Env) (w : writer) (b : body) (flag0 : Int)
    (u : String) (h : lookupCat ep w.category = some u) :
    (writeBody ep env w b flag0).target = some u ∧
    (writeBody ep env w b flag0).dtReports = [] := by
  refine ⟨?_, ?_⟩
  · rw [writeBody_target, wpd_gz]
    unfold writePointData
    rw [h]
    exact deliver_target env flag0 u false
  · rw [writeBody_dt, wpd_gz]
    unfold writePointData
    rw [h]
    exact deliver_dt_off env flag0 u

/-- C10 witness: a writer for the routed `metric` category carrying a
dynamic URL is still sent to the static metric URL with no health report. -/
theorem claim10_witness :
    (writeBody ep0 env200 wMetDyn b1 0).target =
      some "https://gw.example/v1/write/metric?token=T1" ∧
    (writeBody ep0 env200 wMetDyn b1 0).dtReports = [] :=
  claim10_thm ep0 env200 wMetDyn b1 0 "https://gw.example/v1/write/metric?token=T1" (by decide)

/-- C1 counterexample to the claim as stated: a 5xx outcome with
`cacheAll = false` on the cacheable `logging` category, but with a nil
failure-cache handle, makes zero enqueue calls — not the "exactly one" the
claim requires for non-never-cache categories. -/
theorem claim1_cex :
    (writeBody ep0 env500 wLogNoFc b1 0).err = some WPError.dwInternal ∧
    wLogNoFc.cacheAll = false ∧
    wLogNoFc.category ∉ neverCacheCategories ∧
    (writeBody ep0 env500 wLogNoFc b1 0).puts = [] := by decide

/-- C1 (amended): for a body whose delivery ends in a 5xx or network-error
outcome, with `cacheAll = false` and a non-nil failure-cache handle: a
category in the never-cache set gets zero enqueue calls and the dropped-data
warning; any other category gets exactly one enqueue call whose record
carries the body's raw bytes, its payload encoding tag, and the category
code. -/
theorem claim1_amended (ep : endPoint) (env : Env) (w : writer) (b : body) (flag0 : Int)
    (hfc : w.fcPresent = true) (hca : w.cacheAll = false)
    (hout : (writeBody ep env w b flag0).err = some WPError.netError ∨
            (writeBody ep env w b flag0).err = some WPError.dwInternal) :
    (w.category ∈ neverCacheCategories →
      (writeBody ep env w b flag0).puts = [] ∧
      (writeBody ep env w b flag0).dropWarned = true) ∧
    (w.category ∉ neverCacheCategories →
      (writeBody ep env w b flag0).puts =
        [{ category := catURL w.category, payloadType := b.payload, payload := b.buf }] ∧
      (writeBody ep env w b flag0).dropWarned = false) := by
  rw [writeBody_err] at hout
  have hex : ∃ e, (writePointData ep env { w with gzip := b.gzon } flag0).err = some e ∧
      e ≠ WPError.write4xx := by
    rcases hout with hh | hh
    · exact ⟨_, hh, by decide⟩
    · exact ⟨_, hh, by decide⟩
  obtain ⟨e, herr, hne⟩ := hex
  have hp : (writeBody ep env w b flag0).puts =
      (match (writePointData ep env { w with gzip := b.gzon } flag0).err with
       | none => ([] : List CacheData)
       | some e2 =>
         if (cacheDecision { w with gzip := b.gzon } e2).1 = true
         then [doCacheRecord { w with gzip := b.gzon } b] else []) :=
    writeBodyAux_puts _ _ _
  have hd : (writeBody ep env w b flag0).dropWarned =
      (match (writePointData ep env { w with gzip := b.gzon } flag0).err with
       | none => false
       | some e2 => (cacheDecision { w with gzip := b.gzon } e2).2) :=
    writeBodyAux_drop _ _ _
  rw [herr] at hp hd
  constructor
  · intro hm
    have hcd : cacheDecision { w with gzip := b.gzon } e = (false, true) :=
      cacheDecision_default_mem _ e hfc hca hne hm
    exact ⟨by rw [hp]; simp [hcd], by rw [hd]; simp [hcd]⟩
  · intro hm
    have hcd : cacheDecision { w with gzip := b.gzon } e = (true, false) :=
      cacheDecision_default_nomem _ e hfc hca hne hm
    exact ⟨by rw [hp]; simp [hcd, doCacheRecord], by rw [hd]; simp [hcd]⟩

/-- C1 witness: a 500 outcome on `logging` (cacheable by default) with
`cacheAll = false` and a live failure cache enqueues exactly the record of
the body. -/
theorem claim1_witness :
    (writeBody ep0 env500 wLogFc b1 0).puts =
      [{ category := catURL wLogFc.category, payloadType := b1.payload, payload := b1.buf }] ∧
    (writeBody ep0 env500 wLogFc b1 0).dropWarned = false :=
  (claim1_amended ep0 env500 wLogFc b1 0 rfl rfl (Or.inr (by decide))).2 (by decide)

/-- C3 counterexample to the claim as stated: a 403 quota response while the
flag is already set (here 100) does not leave the value unchanged — the code
adds the current unix time (`atomic.AddInt64`), giving 300. -/
theorem claim3_cex :
    (writePointData ep0 env403q wMet 100).err = some WPError.write4xx ∧
    (writePointData ep0 env403q wMet 100).flag = 300 ∧
    (writePointData ep0 env403q wMet 100).flag ≠ 100 := by decide

/-- C3 (amended): a delivery classified 4xx whose response is exactly 403
with the `beyondDataUsage` marker adds the current unix time to the quota
flag: the flag becomes (stays) nonzero and is never cleared by such a
response, but a second such response increases the value instead of leaving
it unchanged. -/
theorem claim3_amended (ep : endPoint) (env : Env) (w : writer) (flag0 : Int) (rb : String)
    (h1 : env.outcome = Outcome.resp 403 rb)
    (h2 : strContains rb quotaMarker = true)
    (h3 : (writePointData ep env w flag0).err = some WPError.write4xx)
    (h4 : 0 < env.now) (h5 : 0 ≤ flag0) :
    (writePointData ep env w flag0).flag = flag0 + env.now ∧
    0 < (writePointData ep env w flag0).flag := by
  have hfl : (writePointData ep env w flag0).flag = flag0 + env.now := by
    unfold writePointData at h3 ⊢
    cases hl : lookupCat ep w.category with
    | some u =>
      exact deliver_quota_add env flag0 u false rb h1 h2
    | none =>
      rw [hl] at h3
      dsimp only at h3 ⊢
      split_ifs at h3 ⊢ with hdu hpo
      all_goals try exact absurd (Option.some.inj h3) (by decide)
      exact deliver_quota_add env flag0 w.dynamicURL true rb h1 h2
  exact ⟨hfl, by rw [hfl]; omega⟩

/-- C3 witness: a first quota 403 (flag 0, now 200) sets the flag to the
current time, a nonzero value. -/
theorem claim3_witness :
    (writePointData ep0 env403q wMet 0).flag = 0 + env403q.now ∧
    0 < (writePointData ep0 env403q wMet 0).flag :=
  claim3_amended ep0 env403q wMet 0 "beyondDataUsage" rfl (by decide) (by decide)
    (by decide) (by decide)

/-- C4: a 2xx response to a URL containing the write-path marker clears a
previously-set (positive) quota flag to 0; and the flag never goes from
positive to 0 on any other outcome — whenever a delivery ends with the flag
at 0 from a positive start, the outcome was a 2xx response and the POSTed
URL contained the write-path marker. -/
theorem claim4_thm (ep : endPoint) (env : Env) (w : writer) (b : body) (flag0 : Int) :
    (∀ s rb u, env.outcome = Outcome.resp s rb → s / 100 = 2 →
      (writeBody ep env w b flag0).target = some u →
      strContains u writePathMarker = true → 0 < flag0 →
      (writeBody ep env w b flag0).flag = 0) ∧
    (0 < flag0 → 0 < env.now → (writeBody ep env w b flag0).flag = 0 →
      ∃ s rb u, env.outcome = Outcome.resp s rb ∧ s / 100 = 2 ∧
        (writeBody ep env w b flag0).target = some u ∧
        strContains u writePathMarker = true) := by
  simp only [writeBody_flag, writeBody_target, wpd_gz]
  constructor
  · intro s rb u h1 h2 ht h3 h4
    unfold writePointData at ht ⊢
    cases hl : lookupCat ep w.category with
    | some u0 =>
      rw [hl] at ht
      dsimp only at ht ⊢
      have hu : u0 = u :=
        Option.some.inj ((deliver_target env flag0 u0 false).symm.trans ht)
      subst hu
      exact deliver_flag_2xx env flag0 u0 false s rb h1 h2 h3 h4
    | none =>
      rw [hl] at ht
      dsimp only at ht ⊢
      split_ifs at ht ⊢ with hdu hpo
      have hu : w.dynamicURL = u :=
        Option.some.inj ((deliver_target env flag0 w.dynamicURL true).symm.trans ht)
      subst hu
      exact deliver_flag_2xx env flag0 w.dynamicURL true s rb h1 h2 h3 h4
  · intro h4 h5 hz
    unfold writePointData at hz ⊢
    cases hl : lookupCat ep w.category with
    | some u0 =>
      rw [hl] at hz
      dsimp only at hz ⊢
      obtain ⟨s, rb, ho, h2, h3⟩ := deliver_flag_zero env flag0 u0 false h4 h5 hz
      exact ⟨s, rb, u0, ho, h2, deliver_target env flag0 u0 false, h3⟩
    | none =>
      rw [hl] at hz
      dsimp only at hz ⊢
      split_ifs at hz ⊢ with hdu hpo
      all_goals try (have hz2 : flag0 = 0 := hz; omega)
      obtain ⟨s, rb, ho, h2, h3⟩ := deliver_flag_zero env flag0 w.dynamicURL true h4 h5 hz
      exact ⟨s, rb, w.dynamicURL, ho, h2, deliver_target env flag0 w.dynamicURL true, h3⟩

/-- C4 witness: a 200 response to the metric write URL with the flag at 5
clears it to 0. -/
theorem claim4_witness :
    (writeBody ep0 env200 wMet b1 5).flag = 0 :=
  (claim4_thm ep0 env200 wMet b1 5).1 200 ""
    "https://gw.example/v1/write/metric?token=T1" rfl (by decide) (by decide)
    (by decide) (by decide)

/-- C6 (code bug): on a delivery via a dynamic URL that receives a 2xx
response (`err = none`), the dial-testing health callback is invoked exactly
once but reports `ok = false`: the local `httpCode` of `writePointData` is
declared and never assigned, so `httpCode/100 == 2` is false even on
HTTP 200, where the spec requires `ok = true`. -/
theorem claim6_bug :
    (writePointData ep0 env200 wDyn 0).err = none ∧
    (writePointData ep0 env200 wDyn 0).dtReports = [("http://1.2.3.4:9529/cb", false)] := by
  decide

def u1 : URLParts := { scheme := "https", host := "gw.example", rawQuery := "token=T1" }

/-- C8 counterexample to the claim as stated: with base query `b=2&a=1`, the
routing-table URL carries the re-encoded query `a=1&b=2` (keys sorted by
`u.Query().Encode()`), not the original characters in the original order. -/
theorem claim8_cex :
    newEndpoint { scheme := "https", host := "h", rawQuery := "b=2&a=1" } [Metric] =
      Except.ok
        { token := "", host := "h", scheme := "https",
          categoryURL := [(Metric, "https://h/v1/write/metric?a=1&b=2")] } ∧
    ("https://h/v1/write/metric?a=1&b=2" : String) ≠ "https://h/v1/write/metric?b=2&a=1" :=
  ⟨rfl, by decide⟩

/-- C8 (amended): for every successfully constructed endpoint and requested
category, the routing-table URL is scheme://host ++ category path ++ the
canonical re-encoding of the base query (keys sorted, values grouped —
`u.Query().Encode()`), which preserves the token but not necessarily the
original parameter order; when the query is empty no `?` is appended. -/
theorem claim8_amended (u : URLParts) (apis : List String) (ep : endPoint) (api : String)
    (h1 : newEndpoint u apis = Except.ok ep) (h2 : api ∈ apis) :
    lookupCat ep api = some (buildCategoryURL u api) ∧
    buildCategoryURL u api =
      (if encodeQuery u.rawQuery = "" then u.scheme ++ "://" ++ u.host ++ api
       else u.scheme ++ "://" ++ u.host ++ api ++ "?" ++ encodeQuery u.rawQuery) := by
  constructor
  · unfold newEndpoint at h1
    by_cases hs : u.scheme = "http" ∨ u.scheme = "https"
    · rw [if_pos hs] at h1
      injection h1 with h1x
      rw [← h1x]
      unfold lookupCat
      exact assocFind_map (fun a => buildCategoryURL u a) apis api h2
    · rw [if_neg hs] at h1
      exact Except.noConfusion h1
  · unfold buildCategoryURL
    by_cases hq : encodeQuery u.rawQuery = ""
    · simp [hq]
    · simp [hq]

/-- C8 witness: the single-parameter token query `token=T1` survives the
re-encoding, so each category URL of `ep0` carries it unchanged. -/
theorem claim8_witness :
    lookupCat ep0 Metric = some (buildCategoryURL u1 Metric) ∧
    buildCategoryURL u1 Metric =
      (if encodeQuery u1.rawQuery = "" then u1.scheme ++ "://" ++ u1.host ++ Metric
       else u1.scheme ++ "://" ++ u1.host ++ Metric ++ "?" ++ encodeQuery u1.rawQuery) :=
  claim8_amended u1 [Metric, Logging] ep0 Metric rfl (by decide)

end Dataway
